import Mathlib

/-!
# Verification of `pandasvalidation.py`

A shallow embedding of the pandas-validation library (`pandasvalidation.py`,
version 0.2.0).  A pandas `Series` is modelled as a named list of scalar
values; a scalar value is either the missing marker (`NaN`/`NaT`/`None`,
collapsed into one constructor `na`), a numeric value (modelled as a
rational number), a datetime value (modelled as an integer timestamp), or a
string.  The external pandas parsing primitives (`pandas.to_numeric` /
`pandas.to_datetime` with `errors='coerce'`) are modelled by concrete
elementwise coercion functions; string-literal parsing is modelled by a
simple integer-literal parser, which is enough to express the library's
mask/aggregation/warning logic that sits on top of those primitives.
-/

/-- A scalar value held by a pandas Series cell.  `na` models every missing
marker (`NaN`, `NaT`, `None`); `num` models ints/floats as rationals; `dt`
models `datetime`/`Timestamp` values as integer timestamps; `str` models
Python strings. -/
inductive Val where
  | na : Val
  | num (q : ℚ) : Val
  | dt (t : ℤ) : Val
  | str (s : String) : Val
deriving DecidableEq

/-- `pandas.notnull` on a single cell: everything but the missing marker. -/
def Val.notnull : Val → Bool
  | .na => false
  | _ => true

/-- Whether a cell holds a numeric value (`numpy.issubdtype(type(x), numpy.number)`). -/
def Val.isNum : Val → Bool
  | .num _ => true
  | _ => false

/-- Whether a cell holds a datetime value (`type(x) in [datetime.datetime, pandas.Timestamp]`). -/
def Val.isDt : Val → Bool
  | .dt _ => true
  | _ => false

/-- A pandas Series: an optional name together with the ordered cell values.
Labels/index are modelled positionally. -/
structure Series where
  name : Option String
  data : List Val
deriving DecidableEq

/-- Python `repr` of a Series name (`repr(series.name)`): `None` for a
missing name, quoted otherwise (string escaping is not modelled). -/
def pyRepr : Option String → String
  | none => "None"
  | some s => "'" ++ s ++ "'"

/-- Value of a list of decimal digit characters. -/
def digitsVal (l : List Char) : ℕ :=
  l.foldl (fun a c => a * 10 + (c.toNat - 48)) 0

/-- Model of the external numeric-literal parser used by
`pandas.to_numeric`: an optional sign followed by a nonempty digit string
parses to the corresponding integer; everything else is unparseable. -/
def parseNumStr (s : String) : Option ℚ :=
  match s.toList with
  | '-' :: rest =>
      if rest ≠ [] ∧ rest.all Char.isDigit then some (-(digitsVal rest : ℚ)) else none
  | l =>
      if l ≠ [] ∧ l.all Char.isDigit then some ((digitsVal l : ℚ)) else none

/-- Model of the external datetime-literal parser used by
`pandas.to_datetime`: a nonempty digit string parses to its value as a
timestamp; everything else is unparseable.  The `format`/`exact` knobs of
the external parser are threaded through but do not change this model. -/
def parseDtStr (format : Option String) (exact : Bool) (s : String) : Option ℤ :=
  match format, exact with
  | _, _ =>
      match s.toList with
      | l => if l ≠ [] ∧ l.all Char.isDigit then some ((digitsVal l : ℤ)) else none

/-- Elementwise `pandas.to_numeric(·, errors='coerce')`: missing stays
missing, numeric values pass through, strings go through the literal
parser, anything else becomes missing. -/
def coerceNumVal : Val → Option ℚ
  | .na => none
  | .num q => some q
  | .str s => parseNumStr s
  | .dt _ => none

/-- Elementwise `pandas.to_datetime(·, errors='coerce')`: missing stays
missing, datetime values pass through, integer-valued numbers are read as
epoch timestamps, strings go through the datetime parser. -/
def coerceDtVal (format : Option String) (exact : Bool) : Val → Option ℤ
  | .na => none
  | .dt t => some t
  | .num q => if q.den = 1 then some q.num else none
  | .str s => parseDtStr format exact s

/-- Rebuild a Series cell from an optional numeric coercion result. -/
def optNumToVal : Option ℚ → Val
  | none => .na
  | some q => .num q

/-- Rebuild a Series cell from an optional datetime coercion result. -/
def optDtToVal : Option ℤ → Val
  | none => .na
  | some t => .dt t

/-- `mask_nonconvertible(series, to_datatype, datetime_format, exact_date)`:
lenient coercion of the whole column, then
`series.copy().notnull() & converted.isnull()`; an unknown `to_datatype`
raises `ValueError`. -/
def mask_nonconvertible (series : Series) (to_datatype : String)
    (datetime_format : Option String := none) (exact_date : Bool := true) :
    Except String (List Bool) :=
  if to_datatype = "numeric" then
    let converted := series.data.map coerceNumVal
    .ok (List.zipWith (fun v c => v.notnull && c.isNone) series.data converted)
  else if to_datatype = "datetime" then
    let converted := series.data.map (coerceDtVal datetime_format exact_date)
    .ok (List.zipWith (fun v c => v.notnull && c.isNone) series.data converted)
  else
    .error ("Invalid 'to_datatype': " ++ to_datatype)

/-- Whether strict numeric coercion (`pandas.to_numeric(·, errors='raise')`)
of the column fails: some non-missing cell is unparseable. -/
def strictNumFails (series : Series) : Bool :=
  series.data.any (fun v => v.notnull && (coerceNumVal v).isNone)

/-- Whether strict datetime coercion (`pandas.to_datetime(·, errors='raise')`)
of the column fails: some non-missing cell is unparseable. -/
def strictDtFails (format : Option String) (exact : Bool) (series : Series) : Bool :=
  series.data.any (fun v => v.notnull && (coerceDtVal format exact v).isNone)

/-- `to_numeric(arg)` on a Series: try strict coercion, on failure retry
leniently and warn `'<name>': value(s) not converted to numeric set as NaN`.
Returns the coerced series and the list of emitted warnings. -/
def to_numeric (series : Series) : Series × List String :=
  let converted : Series := ⟨series.name, series.data.map (fun v => optNumToVal (coerceNumVal v))⟩
  if strictNumFails series then
    (converted,
      [pyRepr series.name ++ ": value(s) not converted to numeric set as NaN"])
  else
    (converted, [])

/-- `to_numeric(arg)` on a scalar: the warning (if any) cannot reference a
column name. -/
def to_numeric_scalar (v : Val) : Val × List String :=
  let converted := optNumToVal (coerceNumVal v)
  if v.notnull && (coerceNumVal v).isNone then
    (converted, ["Value(s) not converted to numeric set as NaN"])
  else
    (converted, [])

/-- `to_datetime(arg, ...)` on a Series: try strict coercion, on failure
retry leniently and warn `'<name>': value(s) not converted to datetime set
as NaT`.  Returns the coerced series and the list of emitted warnings. -/
def to_datetime (series : Series) (format : Option String := none)
    (exact : Bool := true) : Series × List String :=
  let converted : Series :=
    ⟨series.name, series.data.map (fun v => optDtToVal (coerceDtVal format exact v))⟩
  if strictDtFails format exact series then
    (converted,
      [pyRepr series.name ++ ": value(s) not converted to datetime set as NaT"])
  else
    (converted, [])

/-- `to_datetime(arg, ...)` on a scalar. -/
def to_datetime_scalar (format : Option String) (exact : Bool) (v : Val) :
    Val × List String :=
  let converted := optDtToVal (coerceDtVal format exact v)
  if v.notnull && (coerceDtVal format exact v).isNone then
    (converted, ["Value(s) not converted to datetime set as NaT"])
  else
    (converted, [])

/-- `numpy.issubdtype(series.dtype, numpy.number)`: the column's dtype is
numeric, modelled as every cell being a number or `NaN`. -/
def Series.dtypeIsNumeric (series : Series) : Bool :=
  series.data.all (fun v => v.isNum || !v.notnull)

/-- `series.dtype.type == numpy.datetime64`: the column's dtype is
datetime64, modelled as every cell being a datetime or missing with at
least one actual datetime present. -/
def Series.dtypeIsDatetime (series : Series) : Bool :=
  series.data.all (fun v => v.isDt || !v.notnull) && series.data.any Val.isDt

/-- Python truthiness of an optional numeric bound (`if min_value:`):
false for `None` and for `0`. -/
def truthyNum : Option ℚ → Bool
  | none => false
  | some q => q != 0

/-- Python truthiness of an optional string bound (`if min_datetime:`):
false for `None` and for the empty string. -/
def truthyStr : Option String → Bool
  | none => false
  | some s => s != ""

/-- Python `int()` truncation toward zero of a rational. -/
def pyInt (q : ℚ) : ℤ :=
  if 0 ≤ q then ⌊q⌋ else ⌈q⌉

/-- `duplicated()` over a list: flag every element equal to an earlier one.
`accum` holds the values already seen. -/
def dupFlags {α : Type} [DecidableEq α] (accum : List α) : List α → List Bool
  | [] => []
  | a :: rest => accum.contains a :: dupFlags (a :: accum) rest

/-- `converted.dropna().duplicated()` re-aligned to the full index:
missing positions are `false`, a non-missing position is flagged when an
earlier non-missing position holds the same coerced value. -/
def nonuniqueMask {α : Type} [DecidableEq α] (accum : List α) :
    List (Option α) → List Bool
  | [] => []
  | none :: rest => false :: nonuniqueMask accum rest
  | some a :: rest => accum.contains a :: nonuniqueMask (a :: accum) rest

/-- `(converted.dropna() != converted.dropna().apply(int)).any()`: some
non-missing coerced value differs from its Python `int()` truncation. -/
def nonintegerFlag (conv : List (Option ℚ)) : Bool :=
  conv.any (fun c =>
    match c with
    | none => false
    | some q => decide ((pyInt q : ℚ) ≠ q))

/-- `converted.dropna() < bound` re-aligned to the full index: missing
positions are `false`. -/
def tooLowMask {α : Type} [LinearOrder α] (bound : α) (conv : List (Option α)) :
    List Bool :=
  conv.map (fun c =>
    match c with
    | none => false
    | some q => decide (q < bound))

/-- `converted.dropna() > bound` re-aligned to the full index: missing
positions are `false`. -/
def tooHighMask {α : Type} [LinearOrder α] (bound : α) (conv : List (Option α)) :
    List Bool :=
  conv.map (fun c =>
    match c with
    | none => false
    | some q => decide (bound < q))

/-- `_get_error_messages(masks, error_info)`: the fragments of the checks
whose mask has at least one `true`, in mask-insertion order. -/
def get_error_messages (masks : List (String × List Bool))
    (error_info : String → String) : List String :=
  masks.filterMap (fun kv => if kv.2.any id then some (error_info kv.1) else none)

/-- The `error_info` dict of `validate_numeric` (note the copy-pasted
"datetime ... NaT" fragment under the `nonconvertible` key). -/
def numericErrorInfo : String → String
  | "nonconvertible" => "Value(s) not converted to datetime set as NaT"
  | "isnull" => "NaN value(s)"
  | "nonunique" => "duplicates"
  | "noninteger" => "non-integer(s)"
  | "too_low" => "value(s) too low"
  | "too_high" => "values(s) too high"
  | _ => ""

/-- The `error_info` dict of `validate_datetime`. -/
def datetimeErrorInfo : String → String
  | "nonconvertible" => "Value(s) not converted to datetime set as NaT"
  | "isnull" => "NaT value(s)"
  | "nonunique" => "duplicates"
  | "too_low" => "date(s) too early"
  | "too_high" => "date(s) too late"
  | _ => ""

/-- Configuration record for `validate_numeric`, with the source defaults. -/
structure NumericConfig where
  nullable : Bool := true
  unique : Bool := false
  integer : Bool := false
  min_value : Option ℚ := none
  max_value : Option ℚ := none
  return_type : Option String := none
deriving DecidableEq

/-- Configuration record for `validate_datetime`, with the source
defaults.  The `min_datetime`/`max_datetime` bounds are strings, parsed by
the external datetime parser when compared against the coerced column. -/
structure DatetimeConfig where
  nullable : Bool := true
  unique : Bool := false
  min_datetime : Option String := none
  max_datetime : Option String := none
  return_type : Option String := none
deriving DecidableEq

/-- The coercion step of `validate_numeric`: coerce leniently unless the
dtype is already numeric, in which case the column is copied as-is. -/
def numCoerced (series : Series) : List (Option ℚ) :=
  if series.dtypeIsNumeric then
    series.data.map (fun v => match v with | .num q => some q | _ => none)
  else
    series.data.map coerceNumVal

/-- The coercion step of `validate_datetime`. -/
def dtCoerced (series : Series) : List (Option ℤ) :=
  if series.dtypeIsDatetime then
    series.data.map (fun v => match v with | .dt t => some t | _ => none)
  else
    series.data.map (coerceDtVal none true)

/-- The Named Mask Collection built by `validate_numeric`, in insertion
order.  Masks computed over `dropna()` subsequences are re-aligned to the
full index with `false` at missing positions (which is how
`pandas.concat` + `any(skipna=True)` treats them downstream). -/
def numericMasks (series : Series) (cfg : NumericConfig) :
    List (String × List Bool) :=
  let conv := numCoerced series
  [("nonconvertible", List.zipWith (fun v c => v.notnull && c.isNone) series.data conv)]
  ++ (if !cfg.nullable then [("isnull", conv.map Option.isNone)] else [])
  ++ (if cfg.unique then [("nonunique", nonuniqueMask [] conv)] else [])
  ++ (if cfg.integer then
        [("noninteger", List.replicate series.data.length (nonintegerFlag conv))]
      else [])
  ++ (if truthyNum cfg.min_value then
        [("too_low", tooLowMask (cfg.min_value.getD 0) conv)]
      else [])
  ++ (if truthyNum cfg.max_value then
        [("too_high", tooHighMask (cfg.max_value.getD 0) conv)]
      else [])

/-- The string bound of `validate_datetime` as a timestamp, via the
external parser (model: unparseable bounds behave as timestamp 0). -/
def dtBound (s : String) : ℤ :=
  (parseDtStr none true s).getD 0

/-- The Named Mask Collection built by `validate_datetime`, in insertion
order. -/
def datetimeMasks (series : Series) (cfg : DatetimeConfig) :
    List (String × List Bool) :=
  let conv := dtCoerced series
  [("nonconvertible", List.zipWith (fun v c => v.notnull && c.isNone) series.data conv)]
  ++ (if !cfg.nullable then [("isnull", conv.map Option.isNone)] else [])
  ++ (if cfg.unique then [("nonunique", nonuniqueMask [] conv)] else [])
  ++ (if truthyStr cfg.min_datetime then
        [("too_low", tooLowMask (dtBound (cfg.min_datetime.getD "")) conv)]
      else [])
  ++ (if truthyStr cfg.max_datetime then
        [("too_high", tooHighMask (dtBound (cfg.max_datetime.getD "")) conv)]
      else [])

/-- `mask_frame.any(axis=1)`: the row-wise OR of all masks over the full
index (`pandas` skips the `NaN` holes left by re-alignment, matching the
`false` padding used here). -/
def maskFrameAny (masks : List (String × List Bool)) (n : ℕ) : List Bool :=
  (List.range n).map (fun i => masks.any (fun kv => kv.2.getD i false))

/-- The value returned by a datetime/numeric validator. -/
inductive ValidatorReturn where
  | noReturn : ValidatorReturn
  | maskFrame (mf : List (String × List Bool)) : ValidatorReturn
  | maskSeries (m : List Bool) : ValidatorReturn
  | values (s : Series) : ValidatorReturn
deriving DecidableEq

/-- `converted.where(~mask_frame.any(axis=1))`: keep the coerced value
where no mask fired, otherwise the missing marker. -/
def whereNotAnyNum (anyMask : List Bool) (conv : List (Option ℚ)) : List Val :=
  List.zipWith (fun b c => if b then Val.na else optNumToVal c) anyMask conv

/-- Datetime version of `converted.where(~mask_frame.any(axis=1))`. -/
def whereNotAnyDt (anyMask : List Bool) (conv : List (Option ℤ)) : List Val :=
  List.zipWith (fun b c => if b then Val.na else optDtToVal c) anyMask conv

/-- The single aggregated warning of a numeric/datetime validator:
`repr(series.name) + ': ' + '; '.join(msg_list) + '.'` when at least one
fragment triggered, nothing otherwise. -/
def validatorWarnings (name : Option String) (msg_list : List String) :
    List String :=
  if msg_list.length > 0 then
    [pyRepr name ++ ": " ++ String.intercalate "; " msg_list ++ "."]
  else []

/-- `validate_numeric(series, ...)`: returns the emitted warnings and the
selected view (`ValueError` on an unrecognized `return_type`). -/
def validate_numeric (series : Series) (cfg : NumericConfig) :
    List String × Except String ValidatorReturn :=
  let conv := numCoerced series
  let masks := numericMasks series cfg
  let msg_list := get_error_messages masks numericErrorInfo
  let warns := validatorWarnings series.name msg_list
  let res : Except String ValidatorReturn :=
    match cfg.return_type with
    | none => .ok .noReturn
    | some rt =>
        if rt = "mask_frame" then .ok (.maskFrame masks)
        else if rt = "mask_series" then
          .ok (.maskSeries (maskFrameAny masks series.data.length))
        else if rt = "values" then
          .ok (.values ⟨series.name,
            whereNotAnyNum (maskFrameAny masks series.data.length) conv⟩)
        else .error "Invalid return_type"
  (warns, res)

/-- `validate_datetime(series, ...)`. -/
def validate_datetime (series : Series) (cfg : DatetimeConfig) :
    List String × Except String ValidatorReturn :=
  let conv := dtCoerced series
  let masks := datetimeMasks series cfg
  let msg_list := get_error_messages masks datetimeErrorInfo
  let warns := validatorWarnings series.name msg_list
  let res : Except String ValidatorReturn :=
    match cfg.return_type with
    | none => .ok .noReturn
    | some rt =>
        if rt = "mask_frame" then .ok (.maskFrame masks)
        else if rt = "mask_series" then
          .ok (.maskSeries (maskFrameAny masks series.data.length))
        else if rt = "values" then
          .ok (.values ⟨series.name,
            whereNotAnyDt (maskFrameAny masks series.data.length) conv⟩)
        else .error "Invalid return_type"
  (warns, res)

/-- Python `str()` of a cell, as applied by `.astype(str)`: strings pass
through, numbers and timestamps render via their default form, the missing
marker renders as the literal string "nan". -/
def pyStr : Val → String
  | .na => "nan"
  | .num q => toString q
  | .dt t => toString t
  | .str s => s

/-- `_numeric_to_string(series, float_format)`: copy the column, render
every non-missing numeric cell through the float format, leave the rest as
they are (`converted.where(numeric_mask, series)`).  The printf-style
`float_format` is modelled as an abstract formatter `ℚ → String`. -/
def numericToString (float_format : ℚ → String) (series : Series) : Series :=
  ⟨series.name, series.data.map (fun v =>
    match v with
    | .num q => .str (float_format q)
    | _ => v)⟩

/-- `_datetime_to_string(series, format)`: copy the column, render every
datetime-typed cell through the strftime format, leave the rest as they
are.  The strftime `format` is modelled as an abstract formatter
`ℤ → String`. -/
def datetimeToString (format : ℤ → String) (series : Series) : Series :=
  ⟨series.name, series.data.map (fun v =>
    match v with
    | .dt t => .str (format t)
    | _ => v)⟩

/-- `converted.astype(str)`: every cell becomes its Python string form. -/
def astypeStr (series : Series) : Series :=
  ⟨series.name, series.data.map (fun v => .str (pyStr v))⟩

/-- `converted.where(series.notnull(), numpy.nan)`: restore the missing
marker at every position that was missing in `series`. -/
def whereNotnull (orig : Series) (converted : Series) : Series :=
  ⟨converted.name,
    List.zipWith (fun o c => if o.notnull then c else Val.na) orig.data converted.data⟩

/-- `to_string(series, float_format, datetime_format)`: numeric rendering,
then datetime rendering, then `astype(str)`, then restoring missing
markers. -/
def to_string (float_format : ℚ → String) (datetime_format : ℤ → String)
    (series : Series) : Series :=
  whereNotnull series
    (astypeStr (datetimeToString datetime_format (numericToString float_format series)))

/-- Default model of the `'%g'` float format. -/
def defaultFloatFormat (q : ℚ) : String := toString q

/-- Default model of the `'%Y-%m-%d'` datetime format. -/
def defaultDatetimeFormat (t : ℤ) : String := toString t

/-- The three character-case constraints accepted by `validate_string`
(the source dispatches on the strings 'lower', 'upper', 'title' via
`getattr`; the closed set of valid names is modelled as an enum). -/
inductive CaseKind where
  | lower : CaseKind
  | upper : CaseKind
  | title : CaseKind
deriving DecidableEq

/-- The name of a case constraint, as interpolated into the warning. -/
def caseName : CaseKind → String
  | .lower => "lower"
  | .upper => "upper"
  | .title => "title"

/-- Model of Python `str.islower`: at least one cased character and no
uppercase character (cased is modelled as alphabetic). -/
def pyIsLower (s : String) : Bool :=
  s.toList.any Char.isAlpha && s.toList.all (fun c => !c.isUpper)

/-- Model of Python `str.isupper`. -/
def pyIsUpper (s : String) : Bool :=
  s.toList.any Char.isAlpha && s.toList.all (fun c => !c.isLower)

/-- Recursion core of the `str.istitle` model: alphabetic characters that
start a run must be uppercase, later ones lowercase; `prevCased` remembers
whether the previous character was alphabetic, `found` whether a cased
character occurred. -/
def istitleGo (prevCased : Bool) (found : Bool) : List Char → Bool
  | [] => found
  | c :: rest =>
      if c.isAlpha then
        if prevCased then
          c.isLower && istitleGo true true rest
        else
          c.isUpper && istitleGo true true rest
      else
        istitleGo false found rest

/-- Model of Python `str.istitle`. -/
def pyIsTitle (s : String) : Bool :=
  istitleGo false false s.toList

/-- The predicate behind `getattr(validated.dropna().str, 'is' + case)`. -/
def casePred : CaseKind → String → Bool
  | .lower => pyIsLower
  | .upper => pyIsUpper
  | .title => pyIsTitle

/-- Whether the pattern list occurs at the head of the text list. -/
def listStarts {α : Type} [DecidableEq α] : List α → List α → Bool
  | [], _ => true
  | _ :: _, [] => false
  | a :: p, b :: t => a = b && listStarts p t

/-- Whether the pattern list occurs anywhere in the text list. -/
def listSub {α : Type} [DecidableEq α] (p : List α) : List α → Bool
  | [] => listStarts p []
  | b :: t => listStarts p (b :: t) || listSub p t

/-- Model of `Series.str.contains(pat, regex=True)` on one value: regex
containment is modelled as substring containment (the module only ever
passes literal patterns or user-supplied ones treated as opaque). -/
def strContains (pat : String) (s : String) : Bool :=
  listSub pat.toList s.toList

/-- `'\s'` containment: the value holds some whitespace character. -/
def containsWhitespaceChar (s : String) : Bool :=
  s.toList.any Char.isWhitespace

/-- `'^\s|\s$'` containment: the value starts or ends with whitespace. -/
def hasEdgeWhitespace (s : String) : Bool :=
  match s.toList with
  | [] => false
  | c :: rest => c.isWhitespace || (rest.getLastD c).isWhitespace

/-- The string cells of a column, in order, missing positions dropped
(`validated.dropna()`; after the conversion step every non-missing cell is
a string). -/
def strValues (series : Series) : List String :=
  series.data.filterMap (fun v =>
    match v with
    | .str s => some s
    | _ => none)

/-- Configuration record for `validate_string`, with the source defaults.
The regex parameters keep the source's Python truthiness gate (skipped
when `None` or the empty pattern). -/
structure StringConfig where
  nullable : Bool := true
  unique : Bool := false
  min_length : Option ℤ := none
  max_length : Option ℤ := none
  case : Option CaseKind := none
  newlines : Bool := true
  trailing_whitespace : Bool := true
  whitespace : Bool := true
  matching_regex : Option String := none
  non_matching_regex : Option String := none
  whitelist : Option (List Val) := none
  blacklist : Option (List Val) := none
  return_values : Bool := false

/-- The ordered list of `validate_string` checks: each entry is the fired
condition of one `if ...: warnings.warn(...)` statement of the source,
paired with its message.  `validated` is the column after the
string-conversion step. -/
def stringChecks (validated : Series) (cfg : StringConfig) :
    List (Bool × String) :=
  let rname := pyRepr validated.name
  let lens : List ℤ := (strValues validated).map (fun s => (s.length : ℤ))
  [ (!cfg.nullable && validated.data.any (fun v => !v.notnull),
      rname ++ ": NaN value(s)"),
    (cfg.unique && (dupFlags [] validated.data).any id,
      rname ++ ": duplicates"),
    (cfg.min_length.isSome &&
        (match lens.min? with
         | none => false
         | some m => decide (m < cfg.min_length.getD 0)),
      rname ++ ": string(s) too short (< " ++ toString (cfg.min_length.getD 0)
        ++ " characters)"),
    (cfg.max_length.isSome &&
        (match lens.max? with
         | none => false
         | some m => decide (cfg.max_length.getD 0 < m)),
      rname ++ ": string(s) too long (> " ++ toString (cfg.max_length.getD 0)
        ++ " characters)"),
    (cfg.case.isSome &&
        !(strValues validated).all (casePred (cfg.case.getD .lower)),
      rname ++ ": wrong case letter(s) (non-" ++ caseName (cfg.case.getD .lower)
        ++ "case)"),
    (!cfg.newlines && (strValues validated).any (strContains "\n"),
      rname ++ ": newline character(s)"),
    (!cfg.trailing_whitespace && (strValues validated).any hasEdgeWhitespace,
      rname ++ ": trailing whitespace"),
    (!cfg.whitespace && (strValues validated).any containsWhitespaceChar,
      rname ++ ": whitespace"),
    (truthyStr cfg.matching_regex &&
        !(strValues validated).all (strContains (cfg.matching_regex.getD "")),
      rname ++ ": mismatch(es) for \"matching regular expression\" ("
        ++ pyRepr cfg.matching_regex ++ ")"),
    (truthyStr cfg.non_matching_regex &&
        (strValues validated).any (strContains (cfg.non_matching_regex.getD "")),
      rname ++ ": match(es) for \"non-matching regular expression\" ("
        ++ pyRepr cfg.non_matching_regex ++ ")"),
    (cfg.whitelist.isSome &&
        !validated.data.all (fun v =>
          !v.notnull || (cfg.whitelist.getD []).contains v),
      rname ++ ": Value(s) not in whitelist"),
    (cfg.blacklist.isSome &&
        validated.data.any (fun v =>
          v.notnull && (cfg.blacklist.getD []).contains v),
      rname ++ ": Value(s) in blacklist") ]

/-- The string-conversion step of `validate_string`: convert through
`to_string` (with the default formats) when some non-missing cell is not a
string, otherwise copy as-is. -/
def stringValidated (series : Series) : Series :=
  if series.data.any (fun v => v.notnull && !(match v with | .str _ => true | _ => false)) then
    to_string defaultFloatFormat defaultDatetimeFormat series
  else
    series

/-- `validate_string(series, ...)`: one warning is emitted per fired
check, in source order; returns the warnings and, when `return_values` is
set, the validated column. -/
def validate_string (series : Series) (cfg : StringConfig) :
    List String × Option Series :=
  let validated := stringValidated series
  ((stringChecks validated cfg).filterMap
      (fun p => if p.1 then some p.2 else none),
    if cfg.return_values then some validated else none)

/-- The Python heap restricted to Series objects: a list of live Series,
indexed by allocation order. -/
abbrev Store := List Series

/-- Dereference a Series object. -/
def Store.get (st : Store) (r : ℕ) : Series :=
  st.getD r ⟨none, []⟩

/-- Allocate a fresh Series object (`series.copy()`, or any pandas call
returning a new object) and return its reference. -/
def Store.alloc (st : Store) (s : Series) : ℕ × Store :=
  (st.length, st ++ [s])

/-- Overwrite a Series object in place (`converted[mask] = ...`). -/
def Store.put (st : Store) (r : ℕ) (s : Series) : Store :=
  st.set r s

/-- In-place masked assignment `converted[numeric_mask] = series[numeric_mask].apply(fmt)`
as a value transformation on the stored column. -/
def applyOnMask (mask : List Bool) (f : Val → Val) (s : Series) : Series :=
  ⟨s.name, List.zipWith (fun b v => if b then f v else v) mask s.data⟩

/-- `converted.where(mask, series)`: a fresh column taking `converted`'s
cell where the mask holds and `series`'s cell elsewhere. -/
def whereMask (conv : Series) (mask : List Bool) (orig : Series) : Series :=
  ⟨conv.name,
    List.zipWith (fun bc o => if bc.1 then bc.2 else o) (mask.zip conv.data) orig.data⟩

/-- Heap-level `_numeric_to_string`: copy the argument, mutate the copy in
place on the numeric mask, return a fresh `where` result. -/
def numericToStringSt (float_format : ℚ → String) (r : ℕ) (st : Store) :
    ℕ × Store :=
  let series := st.get r
  let copied := st.alloc series
  let numeric_mask := series.data.map Val.isNum
  let st2 :=
    if numeric_mask.any id then
      copied.2.put copied.1
        (applyOnMask numeric_mask
          (fun v => match v with | .num q => .str (float_format q) | _ => v)
          (copied.2.get copied.1))
    else copied.2
  st2.alloc (whereMask (st2.get copied.1) numeric_mask series)

/-- Heap-level `_datetime_to_string`. -/
def datetimeToStringSt (format : ℤ → String) (r : ℕ) (st : Store) :
    ℕ × Store :=
  let series := st.get r
  let copied := st.alloc series
  let datetime_mask := series.data.map Val.isDt
  let st2 :=
    if datetime_mask.any id then
      copied.2.put copied.1
        (applyOnMask datetime_mask
          (fun v => match v with | .dt t => .str (format t) | _ => v)
          (copied.2.get copied.1))
    else copied.2
  st2.alloc (whereMask (st2.get copied.1) datetime_mask series)

/-- Heap-level `to_string`: the two formatter passes, then `astype(str)`
and the `where(series.notnull(), nan)` restore, each returning a fresh
object. -/
def toStringSt (float_format : ℚ → String) (datetime_format : ℤ → String)
    (r : ℕ) (st : Store) : ℕ × Store :=
  let step1 := numericToStringSt float_format r st
  let step2 := datetimeToStringSt datetime_format step1.1 step1.2
  let step3 := step2.2.alloc (astypeStr (step2.2.get step2.1))
  step3.2.alloc (whereNotnull (step3.2.get r) (step3.2.get step3.1))

/-- Heap-level `mask_nonconvertible`: the lenient coercion and
`series.copy()` allocate fresh objects; the mask itself is a plain boolean
sequence. -/
def maskNonconvertibleSt (to_datatype : String) (datetime_format : Option String)
    (exact_date : Bool) (r : ℕ) (st : Store) :
    Except String (List Bool) × Store :=
  let series := st.get r
  let converted : Series :=
    if to_datatype = "numeric" then
      ⟨series.name, series.data.map (fun v => optNumToVal (coerceNumVal v))⟩
    else
      ⟨series.name, series.data.map (fun v =>
        optDtToVal (coerceDtVal datetime_format exact_date v))⟩
  let allocConv := st.alloc converted
  let allocCopy := allocConv.2.alloc series
  (mask_nonconvertible series to_datatype datetime_format exact_date, allocCopy.2)

/-- Heap-level `validate_numeric`: the coerced column (`to_numeric` result
or `series.copy()`) is a fresh object; everything else only reads. -/
def validateNumericSt (cfg : NumericConfig) (r : ℕ) (st : Store) :
    (List String × Except String ValidatorReturn) × Store :=
  let series := st.get r
  let allocConv := st.alloc ⟨series.name, (numCoerced series).map optNumToVal⟩
  (validate_numeric series cfg, allocConv.2)

/-- Heap-level `validate_datetime`. -/
def validateDatetimeSt (cfg : DatetimeConfig) (r : ℕ) (st : Store) :
    (List String × Except String ValidatorReturn) × Store :=
  let series := st.get r
  let allocConv := st.alloc ⟨series.name, (dtCoerced series).map optDtToVal⟩
  (validate_datetime series cfg, allocConv.2)

/-- Heap-level `validate_string`: the conversion step either runs the
heap-level `to_string` or copies the argument; the checks only read. -/
def validateStringSt (cfg : StringConfig) (r : ℕ) (st : Store) :
    (List String × Option ℕ) × Store :=
  let series := st.get r
  let validatedRef :=
    if series.data.any (fun v => v.notnull && !(match v with | .str _ => true | _ => false)) then
      toStringSt defaultFloatFormat defaultDatetimeFormat r st
    else
      st.alloc series
  let warns := (stringChecks (validatedRef.2.get validatedRef.1) cfg).filterMap
    (fun p => if p.1 then some p.2 else none)
  ((warns, if cfg.return_values then some validatedRef.1 else none), validatedRef.2)

/-! ## Helper lemmas -/

/-- Decidable equality of `Except` results, for evaluating the embedding
on concrete inputs. -/
instance exceptDecEq {ε α : Type} [DecidableEq ε] [DecidableEq α] :
    DecidableEq (Except ε α) := fun a b =>
  match a, b with
  | .ok x, .ok y =>
      if h : x = y then .isTrue (by rw [h]) else .isFalse (by simp [h])
  | .error x, .error y =>
      if h : x = y then .isTrue (by rw [h]) else .isFalse (by simp [h])
  | .ok _, .error _ => .isFalse (by simp)
  | .error _, .ok _ => .isFalse (by simp)

/-- Zipping a list with an elementwise image of itself is a map. -/
theorem zipWith_self_map {α β γ : Type} (g : α → β → γ) (f : α → β) (l : List α) :
    List.zipWith g l (l.map f) = l.map (fun a => g a (f a)) := by
  rw [List.zipWith_map_right, List.zipWith_same]

/-- `getD` through a `zipWith`, within bounds on both sides. -/
theorem zipWith_getD {α β γ : Type} (g : α → β → γ) (da : α) (db : β) (dc : γ) :
    ∀ (a : List α) (b : List β) (i : ℕ), i < a.length → i < b.length →
      (List.zipWith g a b).getD i dc = g (a.getD i da) (b.getD i db) := by
  intro a
  induction a with
  | nil => intro b i h _; exact absurd h (by simp)
  | cons x xs ih =>
      intro b i h1 h2
      cases b with
      | nil => exact absurd h2 (by simp)
      | cons y ys =>
          cases i with
          | zero => rfl
          | succ j =>
              simp only [List.zipWith_cons_cons, List.getD_cons_succ]
              exact ih ys j (Nat.lt_of_succ_lt_succ h1) (Nat.lt_of_succ_lt_succ h2)

/-- Counting the survivors of the warning filter equals counting the fired
checks. -/
theorem filterMap_fired_length (l : List (Bool × String)) :
    (l.filterMap (fun p => if p.1 then some p.2 else none)).length =
      (l.filter (fun p => p.1)).length := by
  induction l with
  | nil => rfl
  | cons p t ih =>
      cases h : p.1 <;> simp [List.filterMap_cons, List.filter_cons, h, ih]

/-- The coerced column of `validate_numeric` has the column's length. -/
theorem numCoerced_length (series : Series) :
    (numCoerced series).length = series.data.length := by
  unfold numCoerced; split <;> simp

/-- The coerced column of `validate_datetime` has the column's length. -/
theorem dtCoerced_length (series : Series) :
    (dtCoerced series).length = series.data.length := by
  unfold dtCoerced; split <;> simp

/-- The row-wise OR has one entry per row. -/
theorem maskFrameAny_length (masks : List (String × List Bool)) (n : ℕ) :
    (maskFrameAny masks n).length = n := by
  simp [maskFrameAny]

/-- `getD` of the row-wise OR, within bounds. -/
theorem maskFrameAny_getD (masks : List (String × List Bool)) (n i : ℕ)
    (h : i < n) :
    (maskFrameAny masks n).getD i false =
      masks.any (fun kv => kv.2.getD i false) := by
  simp [maskFrameAny, List.getD_eq_getElem?_getD, List.getElem?_map,
    List.getElem?_range h]

/-! ## C1: the coercion probe -/

/-- C1: for a target type in `{numeric, datetime}`, `mask_nonconvertible`
returns a mask with one entry per cell, true exactly at the non-missing
cells whose lenient coercion to the target type is missing; any other
target type fails with a `ValueError`. -/
theorem mask_nonconvertible_spec (series : Series) (fmt : Option String)
    (ex : Bool) :
    mask_nonconvertible series "numeric" fmt ex =
      .ok (series.data.map (fun v => v.notnull && (coerceNumVal v).isNone)) ∧
    mask_nonconvertible series "datetime" fmt ex =
      .ok (series.data.map (fun v => v.notnull && (coerceDtVal fmt ex v).isNone)) ∧
    ∀ t : String, t ≠ "numeric" → t ≠ "datetime" →
      mask_nonconvertible series t fmt ex =
        .error ("Invalid 'to_datatype': " ++ t) := by
  refine ⟨?_, ?_, ?_⟩
  · simp [mask_nonconvertible, zipWith_self_map]
  · simp [mask_nonconvertible, zipWith_self_map]
  · intro t h1 h2
    simp [mask_nonconvertible, h1, h2]

/-- Witness for C1: on the column `['1', 'y', NaN]` the numeric mask marks
only `'y'`, and the target type `'foo'` is rejected. -/
theorem mask_nonconvertible_spec_witness :
    mask_nonconvertible ⟨some "x", [.str "1", .str "y", .na]⟩ "numeric" none true
        = .ok [false, true, false] ∧
    mask_nonconvertible ⟨some "x", [.str "1", .str "y", .na]⟩ "foo" none true
        = .error "Invalid 'to_datatype': foo" := by
  refine ⟨?_, ?_⟩
  · have h := (mask_nonconvertible_spec ⟨some "x", [.str "1", .str "y", .na]⟩
      none true).1
    rw [h]; decide
  · exact (mask_nonconvertible_spec ⟨some "x", [.str "1", .str "y", .na]⟩
      none true).2.2 "foo" (by decide) (by decide)

/-! ## C3: the worked numeric example -/

/-- C3: on the column `['1', '2', 'x', None]` with `nullable=True`,
`validate_numeric` builds the nonconvertible mask `[F,F,T,F]`, emits one
notification carrying the (mislabeled) fragment
`Value(s) not converted to datetime set as NaT`, and `mask_series` is
`[F,F,T,F]`. -/
theorem validate_numeric_example :
    numericMasks ⟨some "x", [.str "1", .str "2", .str "x", .na]⟩ {} =
      [("nonconvertible", [false, false, true, false])] ∧
    (validate_numeric ⟨some "x", [.str "1", .str "2", .str "x", .na]⟩ {}).1 =
      ["'x': Value(s) not converted to datetime set as NaT."] ∧
    (∃ before after : String,
      "'x': Value(s) not converted to datetime set as NaT." =
        before ++ "Value(s) not converted to datetime set as NaT" ++ after) ∧
    (validate_numeric ⟨some "x", [.str "1", .str "2", .str "x", .na]⟩
        {return_type := some "mask_series"}).2 =
      .ok (.maskSeries [false, false, true, false]) := by
  refine ⟨by decide, by decide, ⟨"'x': ", ".", by decide⟩, by decide⟩

/-! ## C4: the tolerant coercers -/

/-- C4: `to_numeric`/`to_datetime` emit exactly one notification when
strict coercion fails on at least one element and none otherwise, and in
both cases return the leniently coerced column (unconvertible cells set to
the missing marker); likewise on scalars. -/
theorem tolerant_coercers_spec (series : Series) (fmt : Option String)
    (ex : Bool) (v : Val) :
    ((to_numeric series).2.length = 1 ↔ strictNumFails series = true) ∧
    ((to_numeric series).2.length = 0 ↔ strictNumFails series = false) ∧
    (to_numeric series).1 =
      ⟨series.name, series.data.map (fun w => optNumToVal (coerceNumVal w))⟩ ∧
    ((to_datetime series fmt ex).2.length = 1 ↔ strictDtFails fmt ex series = true) ∧
    ((to_datetime series fmt ex).2.length = 0 ↔ strictDtFails fmt ex series = false) ∧
    (to_datetime series fmt ex).1 =
      ⟨series.name, series.data.map (fun w => optDtToVal (coerceDtVal fmt ex w))⟩ ∧
    ((to_numeric_scalar v).2.length = 1 ↔
      (v.notnull && (coerceNumVal v).isNone) = true) ∧
    (to_numeric_scalar v).1 = optNumToVal (coerceNumVal v) ∧
    ((to_datetime_scalar fmt ex v).2.length = 1 ↔
      (v.notnull && (coerceDtVal fmt ex v).isNone) = true) ∧
    (to_datetime_scalar fmt ex v).1 = optDtToVal (coerceDtVal fmt ex v) := by
  refine ⟨?_, ?_, ?_, ?_, ?_, ?_, ?_, ?_, ?_, ?_⟩ <;>
    first
      | (unfold to_numeric; cases h : strictNumFails series <;> simp [h])
      | (unfold to_datetime; cases h : strictDtFails fmt ex series <;> simp [h])
      | (unfold to_numeric_scalar;
          cases h : v.notnull && (coerceNumVal v).isNone <;> simp [h])
      | (unfold to_datetime_scalar;
          cases h : v.notnull && (coerceDtVal fmt ex v).isNone <;> simp [h])

/-! ## C5: range masks gated by Python truthiness -/

/-- C5 (failing input): on the column `[-1]` with `min_value=0`, the
source's `if min_value:` gate is falsy, so no `too_low` mask is built and
no warning is emitted, although `-1 < 0`; with `min_value=1` the mask is
built.  This documents the truthiness slip behind claim C5. -/
theorem validate_numeric_zero_bound_skipped :
    numericMasks ⟨some "x", [.num (-1)]⟩ {min_value := some 0} =
      [("nonconvertible", [false])] ∧
    (validate_numeric ⟨some "x", [.num (-1)]⟩ {min_value := some 0}).1 = [] ∧
    numericMasks ⟨some "x", [.num (-1)]⟩ {min_value := some 1} =
      [("nonconvertible", [false]), ("too_low", [true])] ∧
    datetimeMasks ⟨some "x", [.dt 1]⟩ {min_datetime := some ""} =
      [("nonconvertible", [false])] := by
  refine ⟨by decide, by decide, by decide, by decide⟩

/-! ## C7: the column-wide noninteger check -/

/-- C7: with `integer=True` the `noninteger` mask is a column-wide
broadcast: it is the whole-column replica of one flag, which is set
exactly when some non-missing coerced value differs from its Python
`int()` truncation. -/
theorem noninteger_column_wide (series : Series) (cfg : NumericConfig)
    (h : cfg.integer = true) :
    ("noninteger",
        List.replicate series.data.length (nonintegerFlag (numCoerced series)))
      ∈ numericMasks series cfg ∧
    (nonintegerFlag (numCoerced series) = true ↔
      ∃ q : ℚ, some q ∈ numCoerced series ∧ (pyInt q : ℚ) ≠ q) := by
  constructor
  · simp [numericMasks, h]
  · unfold nonintegerFlag
    rw [List.any_eq_true]
    constructor
    · rintro ⟨c, hc, hp⟩
      cases c with
      | none => exact absurd hp (by simp)
      | some q => exact ⟨q, hc, by simpa using hp⟩
    · rintro ⟨q, hq, hne⟩
      exact ⟨some q, hq, by simpa using hne⟩


/-- Witness for C7: on the column `[5/2, NaN]` with `integer=True`, the
mask is `[true, true]` and `5/2` differs from its truncation. -/
theorem noninteger_column_wide_witness :
    ("noninteger", [true, true])
      ∈ numericMasks ⟨some "x", [.num (mkRat 5 2), .na]⟩ {integer := true} ∧
    nonintegerFlag (numCoerced ⟨some "x", [.num (mkRat 5 2), .na]⟩) = true := by
  have hf : nonintegerFlag (numCoerced ⟨some "x", [.num (mkRat 5 2), .na]⟩)
      = true := by decide
  have h1 := (noninteger_column_wide ⟨some "x", [.num (mkRat 5 2), .na]⟩
    {integer := true} rfl).1
  rw [hf] at h1
  exact ⟨h1, hf⟩

/-! ## C8: idempotence on already-typed columns -/

/-- Mapping a pointwise-identity function over a column is the identity. -/
theorem map_self_of_fixed (f : Val → Val) :
    ∀ l : List Val, (∀ v ∈ l, f v = v) → l.map f = l := by
  intro l
  induction l with
  | nil => intro _; rfl
  | cons v t ih =>
      intro h
      simp only [List.map_cons]
      rw [h v (List.mem_cons_self v t),
        ih (fun w hw => h w (List.mem_cons_of_mem v hw))]

/-- C8: a column whose dtype is already numeric (resp. datetime) is passed
through the validator's coercion step unchanged (same name, same cells),
and the tolerant coercer returns it unchanged with no notification. -/
theorem coercion_idempotent (series : Series) :
    (series.dtypeIsNumeric = true →
      (⟨series.name, (numCoerced series).map optNumToVal⟩ : Series) = series ∧
      to_numeric series = (series, [])) ∧
    (series.dtypeIsDatetime = true →
      (⟨series.name, (dtCoerced series).map optDtToVal⟩ : Series) = series ∧
      to_datetime series none true = (series, [])) := by
  obtain ⟨nm, d⟩ := series
  constructor
  · intro h
    have hall : ∀ v ∈ d, (v.isNum || !v.notnull) = true := by
      simpa [Series.dtypeIsNumeric, List.all_eq_true] using h
    have helem : ∀ v ∈ d, optNumToVal (coerceNumVal v) = v := by
      intro v hv
      have hx := hall v hv
      cases v with
      | na => rfl
      | num q => rfl
      | dt t => simp [Val.isNum, Val.notnull] at hx
      | str s => simp [Val.isNum, Val.notnull] at hx
    have hmap : d.map (fun v => optNumToVal (coerceNumVal v)) = d :=
      map_self_of_fixed _ d helem
    have hconv : (numCoerced ⟨nm, d⟩).map optNumToVal = d := by
      simp only [numCoerced, h, if_true]
      rw [List.map_map]
      refine map_self_of_fixed _ d (fun v hv => ?_)
      have hx := hall v hv
      cases v with
      | na => rfl
      | num q => rfl
      | dt t => simp [Val.isNum, Val.notnull] at hx
      | str s => simp [Val.isNum, Val.notnull] at hx
    have hnofail : strictNumFails ⟨nm, d⟩ = false := by
      simp only [strictNumFails, List.any_eq_false]
      intro v hv
      have hx := hall v hv
      cases v <;> simp_all [Val.isNum, Val.notnull, coerceNumVal]
    refine ⟨by rw [hconv], ?_⟩
    simp only [to_numeric, hnofail, Bool.false_eq_true, if_false]
    rw [hmap]
  · intro h
    have hall : ∀ v ∈ d, (v.isDt || !v.notnull) = true := by
      have h1 := ((Bool.and_eq_true _ _).mp h).1
      simpa [List.all_eq_true] using h1
    have helem : ∀ v ∈ d, optDtToVal (coerceDtVal none true v) = v := by
      intro v hv
      have hx := hall v hv
      cases v with
      | na => rfl
      | dt t => rfl
      | num q => simp [Val.isDt, Val.notnull] at hx
      | str s => simp [Val.isDt, Val.notnull] at hx
    have hmap : d.map (fun v => optDtToVal (coerceDtVal none true v)) = d :=
      map_self_of_fixed _ d helem
    have hconv : (dtCoerced ⟨nm, d⟩).map optDtToVal = d := by
      simp only [dtCoerced, h, if_true]
      rw [List.map_map]
      refine map_self_of_fixed _ d (fun v hv => ?_)
      have hx := hall v hv
      cases v with
      | na => rfl
      | dt t => rfl
      | num q => simp [Val.isDt, Val.notnull] at hx
      | str s => simp [Val.isDt, Val.notnull] at hx
    have hnofail : strictDtFails none true ⟨nm, d⟩ = false := by
      simp only [strictDtFails, List.any_eq_false]
      intro v hv
      have hx := hall v hv
      cases v <;> simp_all [Val.isDt, Val.notnull, coerceDtVal]
    refine ⟨by rw [hconv], ?_⟩
    simp only [to_datetime, hnofail, Bool.false_eq_true, if_false]
    rw [hmap]

/-- Witness for C8: the float column `[1, NaN]` and the datetime column
`[5, NaT]` pass through coercion untouched, with no warning. -/
theorem coercion_idempotent_witness :
    to_numeric ⟨some "n", [.num 1, .na]⟩ = (⟨some "n", [.num 1, .na]⟩, []) ∧
    to_datetime ⟨some "d", [.dt 5, .na]⟩ none true
      = (⟨some "d", [.dt 5, .na]⟩, []) := by
  constructor
  · exact ((coercion_idempotent ⟨some "n", [.num 1, .na]⟩).1 (by decide)).2
  · exact ((coercion_idempotent ⟨some "d", [.dt 5, .na]⟩).2 (by decide)).2

/-! ## C2: one aggregated notification (numeric/datetime) vs one per check
(string) -/

/-- A numeric/datetime validator emits at most one aggregated warning. -/
theorem validatorWarnings_length_le (nm : Option String) (msgs : List String) :
    (validatorWarnings nm msgs).length ≤ 1 := by
  unfold validatorWarnings; split <;> simp

/-- When nonempty, the aggregated warning is the name-prefixed
semicolon-join of the triggered fragments. -/
theorem validatorWarnings_ne_nil (nm : Option String) (msgs : List String)
    (h : validatorWarnings nm msgs ≠ []) :
    validatorWarnings nm msgs =
      [pyRepr nm ++ ": " ++ String.intercalate "; " msgs ++ "."] := by
  by_cases hl : msgs.length > 0
  · simp [validatorWarnings, hl]
  · exact absurd (by simp [validatorWarnings, hl]) h

/-- C2 (counterexample): a single `validate_string` call can emit two
separate notifications, one per fired check. -/
theorem validate_string_multiple_warnings :
    (validate_string ⟨some "x", [.str "a b", .str "a b"]⟩
        {unique := true, whitespace := false}).1 =
      ["'x': duplicates", "'x': whitespace"] ∧
    ¬ (validate_string ⟨some "x", [.str "a b", .str "a b"]⟩
        {unique := true, whitespace := false}).1.length ≤ 1 := by
  refine ⟨by decide, by decide⟩

/-- C2 (amended): `validate_numeric` and `validate_datetime` emit at most
one notification per call, and when they do its message is the
name-prefixed concatenation of all triggered fragments in check-definition
order; `validate_string` instead emits one separate notification per fired
check. -/
theorem validator_warning_discipline (series : Series) (ncfg : NumericConfig)
    (dcfg : DatetimeConfig) (scfg : StringConfig) :
    (validate_numeric series ncfg).1.length ≤ 1 ∧
    (validate_datetime series dcfg).1.length ≤ 1 ∧
    ((validate_numeric series ncfg).1 ≠ [] →
      (validate_numeric series ncfg).1 =
        [pyRepr series.name ++ ": " ++ String.intercalate "; "
          (get_error_messages (numericMasks series ncfg) numericErrorInfo)
          ++ "."]) ∧
    ((validate_datetime series dcfg).1 ≠ [] →
      (validate_datetime series dcfg).1 =
        [pyRepr series.name ++ ": " ++ String.intercalate "; "
          (get_error_messages (datetimeMasks series dcfg) datetimeErrorInfo)
          ++ "."]) ∧
    (validate_string series scfg).1.length =
      ((stringChecks (stringValidated series) scfg).filter
        (fun p => p.1)).length := by
  refine ⟨validatorWarnings_length_le _ _, validatorWarnings_length_le _ _,
    fun h => validatorWarnings_ne_nil _ _ h,
    fun h => validatorWarnings_ne_nil _ _ h,
    filterMap_fired_length _⟩

/-- Witness for C2: on a one-cell unconvertible column both validators
emit exactly the aggregated message. -/
theorem validator_warning_discipline_witness :
    (validate_numeric ⟨some "x", [.str "y"]⟩ {}).1 =
      ["'x': Value(s) not converted to datetime set as NaT."] ∧
    (validate_datetime ⟨some "x", [.str "y"]⟩ {}).1 =
      ["'x': Value(s) not converted to datetime set as NaT."] := by
  constructor
  · have h := (validator_warning_discipline ⟨some "x", [.str "y"]⟩ {} {} {}).2.2.1
      (by decide)
    rw [h]; decide
  · have h := (validator_warning_discipline ⟨some "x", [.str "y"]⟩ {} {} {}).2.2.2.1
      (by decide)
    rw [h]; decide

/-! ## C6: the `values` return and `return_type` dispatch -/

/-- C6 (counterexample): with `nullable=True` and a missing input cell, the
`values` result is missing at a position where the OR of the enabled masks
is `false` — "missing exactly at OR-true positions" fails; the result is
also missing wherever the coerced column itself is missing. -/
theorem values_missing_without_mask :
    (validate_numeric ⟨some "x", [.na]⟩ {return_type := some "values"}).2 =
      .ok (.values ⟨some "x", [.na]⟩) ∧
    maskFrameAny (numericMasks ⟨some "x", [.na]⟩ {return_type := some "values"}) 1
      = [false] ∧
    ¬ (∀ out : Series,
        (validate_numeric ⟨some "x", [.na]⟩ {return_type := some "values"}).2 =
          .ok (.values out) →
        ∀ i : ℕ, i < 1 →
          (out.data.getD i .na = .na ↔
            (maskFrameAny (numericMasks ⟨some "x", [.na]⟩
              {return_type := some "values"}) 1).getD i false = true)) := by
  refine ⟨by decide, by decide, ?_⟩
  intro hclaim
  have h := hclaim ⟨some "x", [.na]⟩ (by decide) 0 (by decide)
  exact absurd (h.mp rfl) (by decide)

/-- C6 (amended): with `return_type='values'` the returned column is
missing at every position where the OR of the enabled masks is true and
holds the coerced value elsewhere (so it is also missing where the coerced
value itself is missing); a `return_type` outside
`{mask_frame, mask_series, values, None}` fails with `ValueError`. -/
theorem values_return_spec (series : Series) (ncfg : NumericConfig)
    (dcfg : DatetimeConfig) (rt : String) :
    (ncfg.return_type = some "values" →
      ∃ out : Series,
        (validate_numeric series ncfg).2 = .ok (.values out) ∧
        out.name = series.name ∧
        out.data.length = series.data.length ∧
        ∀ i : ℕ, i < series.data.length →
          out.data.getD i .na =
            (if (maskFrameAny (numericMasks series ncfg)
                  series.data.length).getD i false
             then Val.na
             else optNumToVal ((numCoerced series).getD i none))) ∧
    (dcfg.return_type = some "values" →
      ∃ out : Series,
        (validate_datetime series dcfg).2 = .ok (.values out) ∧
        out.name = series.name ∧
        out.data.length = series.data.length ∧
        ∀ i : ℕ, i < series.data.length →
          out.data.getD i .na =
            (if (maskFrameAny (datetimeMasks series dcfg)
                  series.data.length).getD i false
             then Val.na
             else optDtToVal ((dtCoerced series).getD i none))) ∧
    (ncfg.return_type = some rt → rt ≠ "mask_frame" → rt ≠ "mask_series" →
      rt ≠ "values" →
      (validate_numeric series ncfg).2 = .error "Invalid return_type") ∧
    (dcfg.return_type = some rt → rt ≠ "mask_frame" → rt ≠ "mask_series" →
      rt ≠ "values" →
      (validate_datetime series dcfg).2 = .error "Invalid return_type") := by
  refine ⟨?_, ?_, ?_, ?_⟩
  · intro h
    refine ⟨⟨series.name,
      whereNotAnyNum (maskFrameAny (numericMasks series ncfg)
        series.data.length) (numCoerced series)⟩, ?_, rfl, ?_, ?_⟩
    · simp [validate_numeric, h]
    · simp only [whereNotAnyNum, List.length_zipWith, maskFrameAny_length,
        numCoerced_length, Nat.min_self]
    · intro i hi
      simp only [whereNotAnyNum]
      rw [zipWith_getD (fun b c => if b then Val.na else optNumToVal c)
        false none Val.na _ _ i
        (by rw [maskFrameAny_length]; exact hi)
        (by rw [numCoerced_length]; exact hi)]
  · intro h
    refine ⟨⟨series.name,
      whereNotAnyDt (maskFrameAny (datetimeMasks series dcfg)
        series.data.length) (dtCoerced series)⟩, ?_, rfl, ?_, ?_⟩
    · simp [validate_datetime, h]
    · simp only [whereNotAnyDt, List.length_zipWith, maskFrameAny_length,
        dtCoerced_length, Nat.min_self]
    · intro i hi
      simp only [whereNotAnyDt]
      rw [zipWith_getD (fun b c => if b then Val.na else optDtToVal c)
        false none Val.na _ _ i
        (by rw [maskFrameAny_length]; exact hi)
        (by rw [dtCoerced_length]; exact hi)]
  · intro h h1 h2 h3
    simp [validate_numeric, h, h1, h2, h3]
  · intro h h1 h2 h3
    simp [validate_datetime, h, h1, h2, h3]

/-- Witness for C6: a bogus `return_type` errors on both validators, and
the `values` view of the one-cell missing column evaluates as stated. -/
theorem values_return_spec_witness :
    (validate_numeric ⟨some "x", [.num 1]⟩ {return_type := some "bogus"}).2 =
      .error "Invalid return_type" ∧
    (validate_datetime ⟨some "x", [.dt 1]⟩ {return_type := some "bogus"}).2 =
      .error "Invalid return_type" ∧
    (∃ out : Series,
      (validate_numeric ⟨some "x", [.na]⟩ {return_type := some "values"}).2 =
        .ok (.values out) ∧
      out.name = some "x" ∧ out.data.length = 1 ∧
      ∀ i : ℕ, i < 1 →
        out.data.getD i .na =
          (if (maskFrameAny (numericMasks ⟨some "x", [.na]⟩
                {return_type := some "values"}) 1).getD i false
           then Val.na
           else optNumToVal ((numCoerced ⟨some "x", [.na]⟩).getD i none))) := by
  refine ⟨?_, ?_, ?_⟩
  · exact (values_return_spec ⟨some "x", [.num 1]⟩ {return_type := some "bogus"}
      {} "bogus").2.2.1 rfl (by decide) (by decide) (by decide)
  · exact (values_return_spec ⟨some "x", [.dt 1]⟩ {}
      {return_type := some "bogus"} "bogus").2.2.2 rfl (by decide) (by decide)
      (by decide)
  · exact (values_return_spec ⟨some "x", [.na]⟩ {return_type := some "values"}
      {} "z").1 rfl

/-! ## Heap lemmas for the frame properties -/

/-- Allocation does not disturb existing objects. -/
theorem store_get_alloc_lt (st : Store) (s : Series) (r : ℕ)
    (h : r < st.length) : (st.alloc s).2.get r = st.get r := by
  simp only [Store.alloc, Store.get]
  exact List.getD_append st [s] _ r h

/-- Allocation grows the heap by one. -/
theorem store_alloc_length (st : Store) (s : Series) :
    (st.alloc s).2.length = st.length + 1 := by
  simp [Store.alloc]

/-- In-place update of one object does not disturb another. -/
theorem store_get_put_ne (st : Store) (r r' : ℕ) (s : Series)
    (h : r ≠ r') : (st.put r' s).get r = st.get r := by
  simp only [Store.put, Store.get, List.getD_eq_getElem?_getD]
  rw [List.getElem?_set_ne (Ne.symm h)]

/-- In-place update preserves the heap size. -/
theorem store_put_length (st : Store) (r : ℕ) (s : Series) :
    (st.put r s).length = st.length := by
  simp [Store.put]

/-- Reading below the old heap bound, through one in-place update of the
freshly copied object and two allocations, is reading the old heap. -/
theorem store_frame_step (l : Store) (s x res : Series) (r' : ℕ)
    (hr : r' < l.length) :
    Store.get (((l ++ [s]).set l.length x) ++ [res]) r' = l.get r' := by
  have h0 : l.length ≠ r' := Nat.ne_of_gt hr
  have h1 : r' < ((l ++ [s]).set l.length x).length := by
    rw [List.length_set, List.length_append]
    omega
  simp only [Store.get, List.getD_eq_getElem?_getD]
  rw [List.getElem?_append_left h1, List.getElem?_set_ne h0,
    List.getElem?_append_left hr]

/-- Reading below the old heap bound through two plain allocations. -/
theorem store_frame_step2 (l : Store) (s res : Series) (r' : ℕ)
    (hr : r' < l.length) :
    Store.get ((l ++ [s]) ++ [res]) r' = l.get r' := by
  have h1 : r' < (l ++ [s]).length := by
    rw [List.length_append]
    omega
  simp only [Store.get, List.getD_eq_getElem?_getD]
  rw [List.getElem?_append_left h1, List.getElem?_append_left hr]

/-- The numeric-formatting pass allocates two objects and leaves every
pre-existing object untouched. -/
theorem numericToStringSt_frame (f : ℚ → String) (r : ℕ) (st : Store) :
    (numericToStringSt f r st).2.length = st.length + 2 ∧
    (numericToStringSt f r st).1 = st.length + 1 ∧
    ∀ r' : ℕ, r' < st.length →
      (numericToStringSt f r st).2.get r' = st.get r' := by
  simp only [numericToStringSt, Store.alloc, Store.put]
  split
  · refine ⟨by simp [List.length_set], by simp [List.length_set], ?_⟩
    intro r' hr
    exact store_frame_step st _ _ _ r' hr
  · refine ⟨by simp, by simp, ?_⟩
    intro r' hr
    exact store_frame_step2 st _ _ r' hr

/-- The datetime-formatting pass allocates two objects and leaves every
pre-existing object untouched. -/
theorem datetimeToStringSt_frame (g : ℤ → String) (r : ℕ) (st : Store) :
    (datetimeToStringSt g r st).2.length = st.length + 2 ∧
    (datetimeToStringSt g r st).1 = st.length + 1 ∧
    ∀ r' : ℕ, r' < st.length →
      (datetimeToStringSt g r st).2.get r' = st.get r' := by
  simp only [datetimeToStringSt, Store.alloc, Store.put]
  split
  · refine ⟨by simp [List.length_set], by simp [List.length_set], ?_⟩
    intro r' hr
    exact store_frame_step st _ _ _ r' hr
  · refine ⟨by simp, by simp, ?_⟩
    intro r' hr
    exact store_frame_step2 st _ _ r' hr

/-- `to_string` at heap level allocates six objects and leaves every
pre-existing object untouched. -/
theorem toStringSt_frame (f : ℚ → String) (g : ℤ → String) (r : ℕ)
    (st : Store) :
    (toStringSt f g r st).2.length = st.length + 6 ∧
    ∀ r' : ℕ, r' < st.length →
      (toStringSt f g r st).2.get r' = st.get r' := by
  obtain ⟨h1len, _, h1get⟩ := numericToStringSt_frame f r st
  obtain ⟨h2len, _, h2get⟩ :=
    datetimeToStringSt_frame g (numericToStringSt f r st).1
      (numericToStringSt f r st).2
  have hlen3 :
      ((datetimeToStringSt g (numericToStringSt f r st).1
        (numericToStringSt f r st).2).2.alloc
          (astypeStr ((datetimeToStringSt g (numericToStringSt f r st).1
            (numericToStringSt f r st).2).2.get
              (datetimeToStringSt g (numericToStringSt f r st).1
                (numericToStringSt f r st).2).1))).2.length
        = st.length + 5 := by
    rw [store_alloc_length, h2len, h1len]
  constructor
  · simp only [toStringSt]
    rw [store_alloc_length, hlen3]
  · intro r' hr
    have hb2 : r' < (numericToStringSt f r st).2.length := by
      rw [h1len]; omega
    have hb3 : r' < (datetimeToStringSt g (numericToStringSt f r st).1
        (numericToStringSt f r st).2).2.length := by
      rw [h2len, h1len]; omega
    have hb4 : r' < ((datetimeToStringSt g (numericToStringSt f r st).1
        (numericToStringSt f r st).2).2.alloc
          (astypeStr ((datetimeToStringSt g (numericToStringSt f r st).1
            (numericToStringSt f r st).2).2.get
              (datetimeToStringSt g (numericToStringSt f r st).1
                (numericToStringSt f r st).2).1))).2.length := by
      rw [hlen3]; omega
    simp only [toStringSt]
    rw [store_get_alloc_lt _ _ r' hb4, store_get_alloc_lt _ _ r' hb3,
      h2get r' hb2, h1get r' hr]

/-- Two consecutive allocations do not disturb existing objects. -/
theorem store_get_alloc2 (st : Store) (a b : Series) (r : ℕ)
    (h : r < st.length) :
    ((st.alloc a).2.alloc b).2.get r = st.get r := by
  have hb : r < (st.alloc a).2.length := by
    rw [store_alloc_length]; omega
  rw [store_get_alloc_lt _ _ r hb, store_get_alloc_lt _ _ r h]

/-! ## C9: the string formatter -/

/-- C9: `to_string` keeps the column's name and shape, renders numeric
cells through the float format, datetime cells through the datetime
format, other non-missing cells through their default string form, keeps
every missing cell missing (never the string "nan"), and — at heap
level — leaves the input object untouched. -/
theorem to_string_spec (f : ℚ → String) (g : ℤ → String) (series : Series) :
    to_string f g series =
      ⟨series.name, series.data.map (fun v =>
        match v with
        | .na => Val.na
        | .num q => Val.str (f q)
        | .dt t => Val.str (g t)
        | .str s => Val.str s)⟩ ∧
    ∀ (st : Store) (r : ℕ), r < st.length →
      (toStringSt f g r st).2.get r = st.get r := by
  constructor
  · obtain ⟨nm, d⟩ := series
    simp only [to_string, whereNotnull, astypeStr, datetimeToString,
      numericToString, List.map_map]
    congr 1
    rw [zipWith_self_map]
    refine List.map_congr_left (fun v _ => ?_)
    cases v <;> rfl
  · exact fun st r h => (toStringSt_frame f g r st).2 r h

/-- Witness for C9: concrete rendering of a four-kind column, and the
heap cell holding the input is untouched by the heap-level run. -/
theorem to_string_spec_witness :
    to_string defaultFloatFormat defaultDatetimeFormat
        ⟨some "x", [.na, .num 3, .dt 7, .str "a"]⟩ =
      ⟨some "x", [.na, .str "3", .str "7", .str "a"]⟩ ∧
    (toStringSt defaultFloatFormat defaultDatetimeFormat 0
        [⟨some "x", [.num 3]⟩]).2.get 0 = ⟨some "x", [.num 3]⟩ := by
  constructor
  · have h := (to_string_spec defaultFloatFormat defaultDatetimeFormat
      ⟨some "x", [.na, .num 3, .dt 7, .str "a"]⟩).1
    rw [h]; decide
  · have h := (to_string_spec defaultFloatFormat defaultDatetimeFormat
      ⟨some "x", [.num 3]⟩).2 [⟨some "x", [.num 3]⟩] 0 (by decide)
    rw [h]; decide

/-! ## C10: no public operation mutates its input -/

/-- C10: at heap level, none of the five public operations changes the
input Series object: after the call, the cell at the input reference holds
the same name and data as before. -/
theorem public_ops_no_mutation (ncfg : NumericConfig) (dcfg : DatetimeConfig)
    (scfg : StringConfig) (td : String) (fmt : Option String) (ex : Bool)
    (f : ℚ → String) (g : ℤ → String) (st : Store) (r : ℕ)
    (h : r < st.length) :
    ((maskNonconvertibleSt td fmt ex r st).2).get r = st.get r ∧
    ((validateNumericSt ncfg r st).2).get r = st.get r ∧
    ((validateDatetimeSt dcfg r st).2).get r = st.get r ∧
    ((validateStringSt scfg r st).2).get r = st.get r ∧
    ((toStringSt f g r st).2).get r = st.get r := by
  refine ⟨?_, ?_, ?_, ?_, (toStringSt_frame f g r st).2 r h⟩
  · simp only [maskNonconvertibleSt]
    exact store_get_alloc2 st _ _ r h
  · simp only [validateNumericSt]
    exact store_get_alloc_lt st _ r h
  · simp only [validateDatetimeSt]
    exact store_get_alloc_lt st _ r h
  · simp only [validateStringSt]
    split
    · exact (toStringSt_frame defaultFloatFormat defaultDatetimeFormat r st).2 r h
    · exact store_get_alloc_lt st _ r h

/-- Witness for C10: on a one-object heap, running the validators leaves
the stored input column intact. -/
theorem public_ops_no_mutation_witness :
    ((validateStringSt {} 0 [⟨some "x", [.num 1]⟩]).2).get 0 =
      ⟨some "x", [.num 1]⟩ ∧
    ((validateNumericSt {} 0 [⟨some "x", [.num 1]⟩]).2).get 0 =
      ⟨some "x", [.num 1]⟩ := by
  have h := public_ops_no_mutation {} {} {} "numeric" none true
    defaultFloatFormat defaultDatetimeFormat [⟨some "x", [.num 1]⟩] 0 (by decide)
  constructor
  · rw [h.2.2.2.1]; decide
  · rw [h.2.1]; decide
